import Mathlib

/-!
Verification of the job-search core (`src/tools.py`): the request validator,
the resilient fetcher's retry loop, the listing formatter and the result
aggregator, shallowly embedded in Lean.

JSON values handed around by the Python code are modelled by `JVal`;
numeric fields are modelled as integers. Python exceptions are modelled by
`Except String`: a `.error` value marks a point where the Python code would
raise, with an informal message naming the exception.
-/

namespace JobSearch

/-- A JSON-like Python value: `None`, booleans, integers, strings, lists and
string-keyed dictionaries (modelled as association lists; Python dictionaries
have no duplicate keys, and `List.lookup` takes the first binding). -/
inductive JVal where
  | null : JVal
  | bool (b : Bool) : JVal
  | int (n : Int) : JVal
  | str (s : String) : JVal
  | arr (xs : List JVal) : JVal
  | obj (fields : List (String × JVal)) : JVal

/-- Python truthiness (`bool(v)`): `None`, `False`, `0`, `""`, `[]`, `{}` are
falsy, everything else truthy. -/
def pyTruthy : JVal → Bool
  | .null => false
  | .bool b => b
  | .int n => !(n == 0)
  | .str s => !(s == "")
  | .arr xs => !xs.isEmpty
  | .obj fs => !fs.isEmpty

/-- `d.get(key, dflt)`: the bound value when the key is present (even when the
bound value is `None`), the default otherwise. -/
def dictGetD (d : List (String × JVal)) (key : String) (dflt : JVal) : JVal :=
  match d.lookup key with
  | some v => v
  | none => dflt

mutual

/-- Python `repr(v)` (the rendering `str` uses for container elements). -/
def pyRepr : JVal → String
  | .null => "None"
  | .bool b => if b then "True" else "False"
  | .int n => toString n
  | .str s => "'" ++ s ++ "'"
  | .arr xs => "[" ++ pyReprList xs ++ "]"
  | .obj fs => "\x7b" ++ pyReprObj fs ++ "\x7d"

/-- Comma-separated `repr`s of list elements. -/
def pyReprList : List JVal → String
  | [] => ""
  | [x] => pyRepr x
  | x :: y :: xs => pyRepr x ++ ", " ++ pyReprList (y :: xs)

/-- Comma-separated `'key': repr(value)` entries of a dictionary. -/
def pyReprObj : List (String × JVal) → String
  | [] => ""
  | [(k, v)] => "'" ++ k ++ "': " ++ pyRepr v
  | (k, v) :: e :: fs => "'" ++ k ++ "': " ++ pyRepr v ++ ", " ++ pyReprObj (e :: fs)

end

/-- Python `str(v)` as used by f-string interpolation: identity on strings,
`repr` on everything else. -/
def pyStr : JVal → String
  | .str s => s
  | v => pyRepr v

/-- Python `len(v)`: defined for strings, lists and dictionaries, a
`TypeError` otherwise. -/
def pyLen : JVal → Except String Nat
  | .str s => .ok s.length
  | .arr xs => .ok xs.length
  | .obj fs => .ok fs.length
  | _ => .error "TypeError: object has no len"

/-- Python `s.strip()`: drop whitespace from both ends. -/
def pyStrip (s : String) : String :=
  String.mk (((s.toList.dropWhile Char.isWhitespace).reverse.dropWhile
    Char.isWhitespace).reverse)

/-- Insert a comma after every third character of a reversed digit list
(the grouping step of Python's `,` format spec). -/
def insertCommas : List Char → List Char
  | a :: b :: c :: d :: rest => a :: b :: c :: ',' :: insertCommas (d :: rest)
  | l => l

/-- Python `f"{n:,.0f}"` for an integer `n`: thousands-separated digits with
no decimals, with a leading minus sign for negative values. -/
def formatThousandsInt (n : Int) : String :=
  (if n < 0 then "-" else "") ++
    String.mk ((insertCommas (toString n.natAbs).toList.reverse).reverse)

/-- Applying the `,.0f` format spec to a value: integers format directly,
booleans format as `1`/`0` (`bool` is a subclass of `int`), anything else
raises a formatting error. -/
def fmtMoney : JVal → Except String String
  | .int n => .ok (formatThousandsInt n)
  | .bool b => .ok (formatThousandsInt (if b then 1 else 0))
  | _ => .error "TypeError: unsupported format string"

/-- Lines 128-135 of `tools.py`: the salary rendering. The branches test
Python truthiness of `salary_min` and `salary_max` (`if salary_min and
salary_max` / `elif salary_min` / `elif salary_max`), not key presence. -/
def salaryInfo (salary_min salary_max : JVal) : Except String String :=
  if pyTruthy salary_min && pyTruthy salary_max then
    match fmtMoney salary_min, fmtMoney salary_max with
    | .ok a, .ok b => .ok ("$" ++ a ++ " - $" ++ b)
    | .error e, _ => .error e
    | _, .error e => .error e
  else if pyTruthy salary_min then
    match fmtMoney salary_min with
    | .ok a => .ok ("From $" ++ a)
    | .error e => .error e
  else if pyTruthy salary_max then
    match fmtMoney salary_max with
    | .ok b => .ok ("Up to $" ++ b)
    | .error e => .error e
  else .ok "Not specified"

/-- Lines 138-140 of `tools.py`: truncate a description string longer than
500 characters to its first 500 characters plus `"..."`. -/
def truncateDescription (description : String) : String :=
  if description.length > 500 then description.take 500 ++ "..." else description

/-- The description step of the formatter, applied to the raw `description`
value: a string is truncated via `truncateDescription`; a non-string value
first hits `len(description)` (a `TypeError` for `None`, numbers and
booleans), and when its length exceeds 500 the slice-and-concatenate
expression raises for lists and dictionaries as well. -/
def descProcess : JVal → Except String JVal
  | .str s => .ok (.str (truncateDescription s))
  | d =>
    match pyLen d with
    | .error e => .error e
    | .ok n =>
      if n > 500 then .error "TypeError: cannot slice and concatenate"
      else .ok d

/-- `job.get(parent, {}).get(child, 'N/A')` (lines 120-121 of `tools.py`):
an absent parent key defaults to an empty dictionary, then the nested get
defaults to `'N/A'`. A present parent value that is not a dictionary has no
`.get` attribute, so Python raises `AttributeError`. -/
def dictGetChain (job : List (String × JVal)) (parent child : String) :
    Except String JVal :=
  match dictGetD job parent (.obj []) with
  | .obj fs => .ok (dictGetD fs child (.str "N/A"))
  | _ => .error "AttributeError: object has no attribute get"

/-- The XML-style template of `_format_job_listing` (lines 143-156 of
`tools.py`), including the final `.strip()`. -/
def jobTemplate (title company location salary created description url :
    String) : String :=
  pyStrip ("\n<job>\n    <title>" ++ title ++ "</title>\n    <company>" ++
    company ++ "</company>\n    <location>" ++ location ++
    "</location>\n    <salary>" ++ salary ++
    "</salary>\n    <posted_date>" ++ created ++
    "</posted_date>\n    <description>\n        " ++ description ++
    "\n    </description>\n    <apply_url>" ++ url ++ "</apply_url>\n</job>\n")

/-- `_format_job_listing` (lines 105-156 of `tools.py`). Field extraction
order and hence exception order follows the source: the `company` chain, the
`location` chain, the salary format expressions, then `len(description)`. -/
def formatJobListing (job : List (String × JVal)) : Except String String :=
  let title := dictGetD job "title" (.str "N/A")
  match dictGetChain job "company" "display_name" with
  | .error e => .error e
  | .ok company =>
    match dictGetChain job "location" "display_name" with
    | .error e => .error e
    | .ok location =>
      let description0 := dictGetD job "description"
        (.str "No description available")
      let salary_min := dictGetD job "salary_min" .null
      let salary_max := dictGetD job "salary_max" .null
      let url := dictGetD job "redirect_url" (.str "N/A")
      let created := dictGetD job "created" (.str "N/A")
      match salaryInfo salary_min salary_max with
      | .error e => .error e
      | .ok sal =>
        match descProcess description0 with
        | .error e => .error e
        | .ok desc =>
          .ok (jobTemplate (pyStr title) (pyStr company) (pyStr location)
            sal (pyStr created) (pyStr desc) (pyStr url))

/-- Line 174 of `tools.py`: the missing-field error message. -/
def missingMsg (field : String) : String :=
  "Missing required field: '" ++ field ++ "'"

/-- The condition `not isinstance(v, str) or len(v.strip()) == 0` of the role
and location checks (lines 178 and 183 of `tools.py`). -/
def strEmptyViol : JVal → Bool
  | .str s => (pyStrip s).length == 0
  | _ => true

/-- The condition `not isinstance(num_results, int)` (line 188 of
`tools.py`): `bool` is a subclass of `int`, so booleans pass the check. -/
def intTypeViol : JVal → Bool
  | .int _ => false
  | .bool _ => false
  | _ => true

/-- The integer value a `JVal` carries under Python's numeric comparisons:
`True == 1` and `False == 0`. Only applied to values passing `intTypeViol`. -/
def pyIntVal : JVal → Int
  | .int n => n
  | .bool b => if b then 1 else 0
  | _ => 0

/-- The condition `num_results < 1 or num_results > 50` (line 190). -/
def intRangeViol (v : JVal) : Bool :=
  pyIntVal v < 1 || pyIntVal v > 50

/-- `_validate_search_input` (lines 159-193 of `tools.py`): the presence loop
over `['role', 'location', 'num_results']`, then the role, location,
`num_results`-type and `num_results`-range checks, each returning on the
first violation. -/
def validateSearchInput (input_data : List (String × JVal)) : Bool × String :=
  if (input_data.lookup "role").isNone then (false, missingMsg "role")
  else if (input_data.lookup "location").isNone then
    (false, missingMsg "location")
  else if (input_data.lookup "num_results").isNone then
    (false, missingMsg "num_results")
  else if strEmptyViol (dictGetD input_data "role" .null) then
    (false, "Role must be a non-empty string")
  else if strEmptyViol (dictGetD input_data "location" .null) then
    (false, "Location must be a non-empty string")
  else if intTypeViol (dictGetD input_data "num_results" .null) then
    (false, "num_results must be an integer")
  else if intRangeViol (dictGetD input_data "num_results" .null) then
    (false, "num_results must be between 1 and 50")
  else (true, "")

/-- Modelled from the spec's ordering sentence: the list of violation
messages present in a request, listed in the spec's fixed precedence order
missing-field (role, location, num_results) → role-empty → location-empty →
num_results-type → num_results-range. A value check only counts as a
violation when its field is present; the range check only when the value is
an integer. -/
def violationList (input_data : List (String × JVal)) : List String :=
  (if (input_data.lookup "role").isNone then [missingMsg "role"] else []) ++
  (if (input_data.lookup "location").isNone then [missingMsg "location"]
    else []) ++
  (if (input_data.lookup "num_results").isNone then [missingMsg "num_results"]
    else []) ++
  (match input_data.lookup "role" with
   | some v => if strEmptyViol v then ["Role must be a non-empty string"]
     else []
   | none => []) ++
  (match input_data.lookup "location" with
   | some v => if strEmptyViol v then ["Location must be a non-empty string"]
     else []
   | none => []) ++
  (match input_data.lookup "num_results" with
   | some v => if intTypeViol v then ["num_results must be an integer"]
     else []
   | none => []) ++
  (match input_data.lookup "num_results" with
   | some v =>
     if !intTypeViol v && intRangeViol v then
       ["num_results must be between 1 and 50"]
     else []
   | none => [])

/-- Modelled from the spec's ordering sentence: report the first violation in
the fixed order, or success when there is none. -/
def validateSpecOrder (input_data : List (String × JVal)) : Bool × String :=
  match violationList input_data with
  | [] => (true, "")
  | m :: _ => (false, m)

/-!
The resilient fetcher. One call of `_make_api_request_with_retry` issues up
to `max_retries` HTTP GET requests; the outcome of each attempt (as seen
through the `try`/`except` arms of lines 56-102 of `tools.py`) is one of the
following.
-/

/-- The classified outcome of one HTTP attempt: a 2xx response with a JSON
body, an HTTPError raised by `raise_for_status` carrying the status code, a
timeout, a connection error, another request exception, or a 2xx response
whose body fails JSON decoding. -/
inductive HttpOutcome where
  | ok (payload : JVal) : HttpOutcome
  | status (code : Nat) : HttpOutcome
  | timeout : HttpOutcome
  | connError : HttpOutcome
  | reqError : HttpOutcome
  | badJson : HttpOutcome

/-- `API_MAX_RETRIES` from `config.py` (line 80), the default retry budget. -/
def API_MAX_RETRIES : Nat := 3

/-- The `for attempt in range(max_retries)` loop of
`_make_api_request_with_retry` (lines 56-102 of `tools.py`), instrumented
with the number of attempts issued. HTTP 429 and 5xx sleep and continue
(falling off the loop to `return None` when the budget is spent); other HTTP
errors, other request exceptions and JSON decode errors return `None` at
once; timeouts and connection errors continue unless this was the last
allowed attempt. -/
def retryGo (resp : Nat → HttpOutcome) (max_retries : Nat) (attempt : Nat) :
    Option JVal × Nat :=
  if attempt < max_retries then
    match resp attempt with
    | .ok p => (some p, attempt + 1)
    | .status c =>
      if c == 429 then retryGo resp max_retries (attempt + 1)
      else if c ≥ 500 then retryGo resp max_retries (attempt + 1)
      else (none, attempt + 1)
    | .timeout =>
      if attempt < max_retries - 1 then retryGo resp max_retries (attempt + 1)
      else (none, attempt + 1)
    | .connError =>
      if attempt < max_retries - 1 then retryGo resp max_retries (attempt + 1)
      else (none, attempt + 1)
    | .reqError => (none, attempt + 1)
    | .badJson => (none, attempt + 1)
  else (none, attempt)
termination_by max_retries - attempt

/-- `_make_api_request_with_retry(url, max_retries)`: the environment is
abstracted as the outcome `resp i` of the `i`-th attempt. Returns the parsed
payload or `None`, paired with the number of attempts issued. -/
def makeApiRequestWithRetry (resp : Nat → HttpOutcome) (max_retries : Nat) :
    Option JVal × Nat :=
  retryGo resp max_retries 0

/-!
The aggregation step of `search_jobs` (lines 305-345 of `tools.py`),
starting from a successfully fetched payload. Validation, the credentials
check and the fetch itself happen before this step and are covered by the
definitions above.
-/

/-- The no-results message of lines 312-319 of `tools.py`. -/
def noResultsMessage (role location : String) : String :=
  "\nℹ️  No job listings found for '" ++ role ++ "' in " ++ location ++
  ".\n\nSuggestions:\n- Try a broader search term (e.g., \"Data\" instead of \"Senior Data Scientist\")\n- Try a different location\n- Try searching for related roles\n"

/-- `"=" * 80`. -/
def eightyEquals : String := String.mk (List.replicate 80 '=')

/-- The f-string of lines 329-341 of `tools.py` on which `.join` is invoked:
a summary line reporting the listing count against the API-reported total,
the search parameters, and two 80-character `=` rules. In the source this
whole block is the *separator* argument of `str.join`. -/
def summaryBlock (role location : String) (numListings : Nat)
    (totalCount : JVal) : String :=
  "\n✅ Successfully found " ++ toString numListings ++
  " job listings (out of " ++ pyStr totalCount ++
  " total matches)\n\nSearch Parameters:\n- Role: " ++ role ++
  "\n- Location: " ++ location ++ "\n\nJob Listings:\n" ++ eightyEquals ++
  "\n\n" ++ eightyEquals ++ "\n\n"

/-- Python `sep.join(parts)`. -/
def strJoin (sep : String) : List String → String
  | [] => ""
  | [x] => x
  | x :: y :: xs => x ++ sep ++ strJoin sep (y :: xs)

/-- The formatting loop of lines 322-325 of `tools.py`: each element of
`results` is formatted by `_format_job_listing` and prefixed with its
`[Job i/N]` header (`enumerate(results, 1)`); an element that is not a
dictionary makes `job.get` raise `AttributeError`. -/
def formatJobsLoop (total : Nat) (i : Nat) : List JVal →
    Except String (List String)
  | [] => .ok []
  | j :: rest =>
    match (match j with
           | .obj fs => formatJobListing fs
           | _ => .error "AttributeError: object has no attribute get") with
    | .error e => .error e
    | .ok fj =>
      match formatJobsLoop total (i + 1) rest with
      | .error e => .error e
      | .ok fjs =>
        .ok (("[Job " ++ toString i ++ "/" ++ toString total ++ "]\n" ++ fj)
          :: fjs)

/-- Steps 5 of `search_jobs` (lines 305-345 of `tools.py`), applied to a
successfully fetched payload `jobs_data`: read `results` (defaulting to the
empty list), return the no-results message when it is falsy, otherwise
format and number every listing and `.join` them with `summaryBlock` as the
separator — the source's `f"""...""".join(formatted_jobs)`. A truthy
non-list `results` value raises (`len`/iteration/`job.get`). -/
def searchFormatResults (role location : String)
    (jobs_data : List (String × JVal)) : Except String String :=
  let results := dictGetD jobs_data "results" (.arr [])
  if !pyTruthy results then .ok (noResultsMessage role location)
  else
    match results with
    | .arr xs =>
      match formatJobsLoop xs.length 1 xs with
      | .error e => .error e
      | .ok fjs =>
        let totalCount := dictGetD jobs_data "count" (.int xs.length)
        .ok (strJoin (summaryBlock role location xs.length totalCount) fjs)
    | _ => .error "TypeError: object is not a list of listings"

/-- Does `pat` occur as a contiguous run inside the character list? -/
def listContainsSub (pat : List Char) : List Char → Bool
  | [] => pat.isEmpty
  | c :: t => pat.isPrefixOf (c :: t) || listContainsSub pat t

/-- Does the string `pat` occur as a substring of `s`? Used to state
facts about the text the program returns. -/
def strContainsSub (s pat : String) : Bool :=
  listContainsSub pat.toList s.toList

/-!
Helper lemmas shared by the claim theorems.
-/

lemma pyTruthy_int_of_ne {n : Int} (h : n ≠ 0) : pyTruthy (.int n) = true := by
  simp [pyTruthy, h]

lemma salaryInfo_isOk_of_numlike (u v : JVal)
    (hu : (∃ n : Int, u = .int n) ∨ u = .null)
    (hv : (∃ n : Int, v = .int n) ∨ v = .null) :
    ∃ s, salaryInfo u v = .ok s := by
  rcases hu with ⟨n, rfl⟩ | rfl
  · rcases hv with ⟨k, rfl⟩ | rfl
    · by_cases hn : n = 0 <;> by_cases hk : k = 0 <;>
        simp [salaryInfo, pyTruthy, fmtMoney, hn, hk]
    · by_cases hn : n = 0 <;> simp [salaryInfo, pyTruthy, fmtMoney, hn]
  · rcases hv with ⟨k, rfl⟩ | rfl
    · by_cases hk : k = 0 <;> simp [salaryInfo, pyTruthy, fmtMoney, hk]
    · simp [salaryInfo, pyTruthy]

lemma dictGetChain_isOk_of (job : List (String × JVal)) (parent child : String)
    (h : ∀ v, job.lookup parent = some v → ∃ fs, v = .obj fs) :
    ∃ x, dictGetChain job parent child = .ok x := by
  rcases hp : job.lookup parent with _ | v
  · refine ⟨.str "N/A", ?_⟩
    unfold dictGetChain
    have hdg : dictGetD job parent (.obj []) = .obj [] := by simp [dictGetD, hp]
    rw [hdg]
    simp [dictGetD]
  · obtain ⟨fs, rfl⟩ := h v hp
    refine ⟨dictGetD fs child (.str "N/A"), ?_⟩
    unfold dictGetChain
    have hdg : dictGetD job parent (.obj []) = .obj fs := by simp [dictGetD, hp]
    rw [hdg]

lemma retryGo_attempts_le_aux (resp : Nat → HttpOutcome) (m : Nat) :
    ∀ k a, m - a = k → a ≤ m → (retryGo resp m a).2 ≤ m := by
  intro k
  induction k with
  | zero =>
    intro a hk h
    have hnot : ¬ a < m := by omega
    unfold retryGo
    rw [if_neg hnot]
    exact h
  | succ k ih =>
    intro a hk h
    have ha : a < m := by omega
    unfold retryGo
    rw [if_pos ha]
    cases hra : resp a with
    | ok p => show a + 1 ≤ m; omega
    | status c =>
      show (if c == 429 then retryGo resp m (a + 1)
        else if c ≥ 500 then retryGo resp m (a + 1) else (none, a + 1)).2 ≤ m
      split_ifs with h1 h2
      · exact ih (a + 1) (by omega) (by omega)
      · exact ih (a + 1) (by omega) (by omega)
      · show a + 1 ≤ m; omega
    | timeout =>
      show (if a < m - 1 then retryGo resp m (a + 1)
        else (none, a + 1)).2 ≤ m
      split_ifs with h1
      · exact ih (a + 1) (by omega) (by omega)
      · show a + 1 ≤ m; omega
    | connError =>
      show (if a < m - 1 then retryGo resp m (a + 1)
        else (none, a + 1)).2 ≤ m
      split_ifs with h1
      · exact ih (a + 1) (by omega) (by omega)
      · show a + 1 ≤ m; omega
    | reqError => show a + 1 ≤ m; omega
    | badJson => show a + 1 ≤ m; omega

lemma retryGo_attempts_le (resp : Nat → HttpOutcome) (m a : Nat) (h : a ≤ m) :
    (retryGo resp m a).2 ≤ m :=
  retryGo_attempts_le_aux resp m (m - a) a rfl h

lemma retryGo_none_of_no_ok_aux (resp : Nat → HttpOutcome) (m : Nat)
    (hfail : ∀ i, i < m → ∀ p, resp i ≠ .ok p) :
    ∀ k a, m - a = k → (retryGo resp m a).1 = none := by
  intro k
  induction k with
  | zero =>
    intro a hk
    have hnot : ¬ a < m := by omega
    unfold retryGo
    rw [if_neg hnot]
  | succ k ih =>
    intro a hk
    have ha : a < m := by omega
    unfold retryGo
    rw [if_pos ha]
    cases hra : resp a with
    | ok p => exact absurd hra (hfail a ha p)
    | status c =>
      show (if c == 429 then retryGo resp m (a + 1)
        else if c ≥ 500 then retryGo resp m (a + 1) else (none, a + 1)).1 = none
      split_ifs with h1 h2
      · exact ih (a + 1) (by omega)
      · exact ih (a + 1) (by omega)
      · rfl
    | timeout =>
      show (if a < m - 1 then retryGo resp m (a + 1)
        else (none, a + 1)).1 = none
      split_ifs with h1
      · exact ih (a + 1) (by omega)
      · rfl
    | connError =>
      show (if a < m - 1 then retryGo resp m (a + 1)
        else (none, a + 1)).1 = none
      split_ifs with h1
      · exact ih (a + 1) (by omega)
      · rfl
    | reqError => rfl
    | badJson => rfl

lemma retryGo_none_of_no_ok (resp : Nat → HttpOutcome) (m a : Nat)
    (hfail : ∀ i, i < m → ∀ p, resp i ≠ .ok p) :
    (retryGo resp m a).1 = none :=
  retryGo_none_of_no_ok_aux resp m hfail (m - a) a rfl

lemma retryGo_step (resp : Nat → HttpOutcome) (m a : Nat) (ha : a < m) :
    retryGo resp m a =
      match resp a with
      | .ok p => (some p, a + 1)
      | .status c =>
        if c == 429 then retryGo resp m (a + 1)
        else if c ≥ 500 then retryGo resp m (a + 1)
        else (none, a + 1)
      | .timeout =>
        if a < m - 1 then retryGo resp m (a + 1) else (none, a + 1)
      | .connError =>
        if a < m - 1 then retryGo resp m (a + 1) else (none, a + 1)
      | .reqError => (none, a + 1)
      | .badJson => (none, a + 1) := by
  conv_lhs => rw [retryGo]
  rw [if_pos ha]

/-!
The claim theorems.
-/

set_option maxRecDepth 100000 in
/-- C1: evaluating `search_jobs`'s aggregation at a successful fetch with a
single listing shows the returned string is exactly the numbered listing
block: it starts with `[Job 1/1]` and the summary line (`✅ Successfully
found ...`) is absent, because the source passes the summary f-string as the
*separator* of `str.join` rather than as a prefix. With two listings the
summary text does appear — between the two listings, as the separator. -/
theorem searchJobs_single_listing_lacks_summary :
    (searchFormatResults "Data Scientist" "Los Angeles"
      [("count", JVal.int 100),
       ("results", JVal.arr [JVal.obj [("title", JVal.str "Data Scientist")]])]).map
      (fun s => ("[Job 1/1]".toList.isPrefixOf s.toList,
                 strContainsSub s "Successfully found",
                 strContainsSub s "✅")) = .ok (true, false, false) ∧
    (searchFormatResults "Data Scientist" "Los Angeles"
      [("count", JVal.int 100),
       ("results", JVal.arr [JVal.obj [("title", JVal.str "A")],
                             JVal.obj [("title", JVal.str "B")]])]).map
      (fun s => ("[Job 1/2]".toList.isPrefixOf s.toList,
                 strContainsSub s "Successfully found")) = .ok (true, true) ∧
    (searchFormatResults "Data Scientist" "Los Angeles"
      [("count", JVal.int 100),
       ("results", JVal.arr [JVal.obj [("title", JVal.str "A")],
                             JVal.obj [("title", JVal.str "B")]])]) =
    .ok (strJoin
          (summaryBlock "Data Scientist" "Los Angeles" 2 (JVal.int 100))
          ["[Job 1/2]\n" ++ jobTemplate "A" "N/A" "N/A" "Not specified" "N/A"
             "No description available" "N/A",
           "[Job 2/2]\n" ++ jobTemplate "B" "N/A" "N/A" "Not specified" "N/A"
             "No description available" "N/A"]) := by
  exact ⟨rfl, rfl, rfl⟩

set_option maxRecDepth 40000 in
/-- C2, counterexample: a listing where both `salary_min` and `salary_max`
are present, with `salary_min = 0`, is rendered `Up to $180,000`, not
`$0 - $180,000`: the branches test truthiness, not presence, and `0` is
falsy. -/
theorem salary_zero_min_counterexample :
    (formatJobListing [("salary_min", JVal.int 0),
      ("salary_max", JVal.int 180000)]).map
      (fun s => (strContainsSub s "$0 - $180,000",
                 strContainsSub s "Up to $180,000")) = .ok (false, true) ∧
    salaryInfo (JVal.int 0) (JVal.int 180000) = .ok "Up to $180,000" := by
  exact ⟨rfl, rfl⟩

/-- C2, amended: the salary field (the `salary_info` value interpolated into
the `<salary>` tag) is rendered by precedence on *truthiness* of the two
values: both truthy → `"$<min> - $<max>"` with thousands separators; only
`salary_min` truthy → `"From $<min>"`; only `salary_max` truthy →
`"Up to $<max>"`; neither truthy → `"Not specified"` (an absent key defaults
to `None`, which is falsy, as are `0` and `null`). In particular
`salary_min=120000, salary_max=180000` yields the substring
`"$120,000 - $180,000"` in the formatted listing. -/
theorem salary_rendering_truthiness (a b : Int) (ha : a ≠ 0) (hb : b ≠ 0) :
    salaryInfo (.int a) (.int b) =
      .ok ("$" ++ formatThousandsInt a ++ " - $" ++ formatThousandsInt b) ∧
    (∀ v, pyTruthy v = false →
      salaryInfo (.int a) v = .ok ("From $" ++ formatThousandsInt a)) ∧
    (∀ v, pyTruthy v = false →
      salaryInfo v (.int b) = .ok ("Up to $" ++ formatThousandsInt b)) ∧
    (∀ u v, pyTruthy u = false → pyTruthy v = false →
      salaryInfo u v = .ok "Not specified") ∧
    (formatJobListing [("salary_min", JVal.int 120000),
      ("salary_max", JVal.int 180000)]).map
      (fun s => strContainsSub s "$120,000 - $180,000") = .ok true := by
  have ha' : pyTruthy (.int a) = true := pyTruthy_int_of_ne ha
  have hb' : pyTruthy (.int b) = true := pyTruthy_int_of_ne hb
  refine ⟨?_, ?_, ?_, ?_, rfl⟩
  · simp [salaryInfo, ha', hb', fmtMoney]
  · intro v hv
    simp [salaryInfo, ha', hv, fmtMoney]
  · intro v hv
    simp [salaryInfo, hv, hb', fmtMoney]
  · intro u v hu hv
    simp [salaryInfo, hu, hv]

/-- Witness for C2's amended theorem at `salary_min=120000,
salary_max=180000` (and `None` for the absent cases). -/
theorem salary_rendering_truthiness_witness :
    salaryInfo (JVal.int 120000) (JVal.int 180000) =
      .ok "$120,000 - $180,000" ∧
    salaryInfo (JVal.int 120000) JVal.null = .ok "From $120,000" ∧
    salaryInfo JVal.null (JVal.int 180000) = .ok "Up to $180,000" ∧
    salaryInfo JVal.null JVal.null = .ok "Not specified" ∧
    (formatJobListing [("salary_min", JVal.int 120000),
      ("salary_max", JVal.int 180000)]).map
      (fun s => strContainsSub s "$120,000 - $180,000") = .ok true := by
  obtain ⟨h1, h2, h3, h4, h5⟩ :=
    salary_rendering_truthiness 120000 180000 (by decide) (by decide)
  exact ⟨h1.trans (by rfl), (h2 .null rfl).trans (by rfl),
    (h3 .null rfl).trans (by rfl), h4 .null .null rfl rfl, h5⟩

/-- C3, counterexample: a listing whose `company` key is present but bound
to `null` makes `_format_job_listing` raise (`None.get` is an
`AttributeError`), so the formatter is not total on listings with null
optional fields. -/
theorem formatter_null_company_raises :
    (formatJobListing [("company", JVal.null)]).isOk = false ∧
    formatJobListing [("company", JVal.null)] =
      .error "AttributeError: object has no attribute get" := by
  exact ⟨rfl, rfl⟩

/-- C3, amended: the formatter returns a string without raising for every
listing in which `company` and `location`, when present, are mappings,
`description`, when present, is a string, and the salary bounds, when
present, are integers or `null` — in particular whenever those keys are
absent. Absent parent keys, and absent nested `display_name` keys, resolve
the company/location field to `"N/A"` rather than crashing. (A `null` bound
to `company`, `location` or `description` raises — see the
counterexample.) -/
theorem formatter_total_on_welltyped_fields (job : List (String × JVal))
    (hc : ∀ v, job.lookup "company" = some v → ∃ fs, v = JVal.obj fs)
    (hl : ∀ v, job.lookup "location" = some v → ∃ fs, v = JVal.obj fs)
    (hd : ∀ v, job.lookup "description" = some v → ∃ s, v = JVal.str s)
    (hmin : ∀ v, job.lookup "salary_min" = some v →
      (∃ n : Int, v = JVal.int n) ∨ v = JVal.null)
    (hmax : ∀ v, job.lookup "salary_max" = some v →
      (∃ n : Int, v = JVal.int n) ∨ v = JVal.null) :
    (formatJobListing job).isOk = true ∧
    (job.lookup "company" = none →
      dictGetChain job "company" "display_name" = .ok (.str "N/A")) ∧
    (∀ fs, job.lookup "company" = some (JVal.obj fs) →
      fs.lookup "display_name" = none →
      dictGetChain job "company" "display_name" = .ok (.str "N/A")) ∧
    (job.lookup "location" = none →
      dictGetChain job "location" "display_name" = .ok (.str "N/A")) ∧
    (∀ fs, job.lookup "location" = some (JVal.obj fs) →
      fs.lookup "display_name" = none →
      dictGetChain job "location" "display_name" = .ok (.str "N/A")) := by
  refine ⟨?_, ?_, ?_, ?_, ?_⟩
  · obtain ⟨cv, hcv⟩ := dictGetChain_isOk_of job "company" "display_name" hc
    obtain ⟨lv, hlv⟩ := dictGetChain_isOk_of job "location" "display_name" hl
    have hminD : (∃ n : Int, dictGetD job "salary_min" .null = .int n) ∨
        dictGetD job "salary_min" .null = .null := by
      rcases hp : job.lookup "salary_min" with _ | v
      · exact Or.inr (by simp [dictGetD, hp])
      · have := hmin v hp
        simpa [dictGetD, hp] using this
    have hmaxD : (∃ n : Int, dictGetD job "salary_max" .null = .int n) ∨
        dictGetD job "salary_max" .null = .null := by
      rcases hp : job.lookup "salary_max" with _ | v
      · exact Or.inr (by simp [dictGetD, hp])
      · have := hmax v hp
        simpa [dictGetD, hp] using this
    obtain ⟨sv, hsv⟩ := salaryInfo_isOk_of_numlike _ _ hminD hmaxD
    have hdD : ∃ s, dictGetD job "description"
        (.str "No description available") = .str s := by
      rcases hp : job.lookup "description" with _ | v
      · exact ⟨"No description available", by simp [dictGetD, hp]⟩
      · obtain ⟨s, rfl⟩ := hd v hp
        exact ⟨s, by simp [dictGetD, hp]⟩
    obtain ⟨ds, hds⟩ := hdD
    simp only [formatJobListing, hcv, hlv, hsv, hds, descProcess]
    rfl
  · intro h
    unfold dictGetChain
    have hdg : dictGetD job "company" (.obj []) = .obj [] := by
      simp [dictGetD, h]
    rw [hdg]
    simp [dictGetD]
  · intro fs hfs hnone
    unfold dictGetChain
    have hdg : dictGetD job "company" (.obj []) = .obj fs := by
      simp [dictGetD, hfs]
    rw [hdg]
    simp [dictGetD, hnone]
  · intro h
    unfold dictGetChain
    have hdg : dictGetD job "location" (.obj []) = .obj [] := by
      simp [dictGetD, h]
    rw [hdg]
    simp [dictGetD]
  · intro fs hfs hnone
    unfold dictGetChain
    have hdg : dictGetD job "location" (.obj []) = .obj fs := by
      simp [dictGetD, hfs]
    rw [hdg]
    simp [dictGetD, hnone]

/-- Witness for C3's amended theorem: the empty listing (every optional
field absent) formats successfully, and its company field is `"N/A"`. -/
theorem formatter_total_on_welltyped_fields_witness :
    (formatJobListing []).isOk = true ∧
    dictGetChain [] "company" "display_name" = .ok (.str "N/A") := by
  obtain ⟨h1, h2, -, -, -⟩ := formatter_total_on_welltyped_fields []
    (fun v h => nomatch h) (fun v h => nomatch h) (fun v h => nomatch h)
    (fun v h => nomatch h) (fun v h => nomatch h)
  exact ⟨h1, h2 rfl⟩

set_option maxRecDepth 8000 in
/-- C4: a description longer than 500 characters is replaced by exactly its
first 500 characters followed by the `"..."` marker; a description of at
most 500 characters passes through unchanged (this is the value the
formatter interpolates into the `<description>` tag, via `descProcess`). In
particular a 600-character description yields exactly 500 characters plus
the three-character marker (length 503). -/
theorem description_truncation (d : String) :
    (d.length > 500 → truncateDescription d = d.take 500 ++ "...") ∧
    (d.length ≤ 500 → truncateDescription d = d) ∧
    (∀ s, descProcess (JVal.str s) = .ok (.str (truncateDescription s))) ∧
    truncateDescription (String.mk (List.replicate 600 'x')) =
      String.mk (List.replicate 500 'x') ++ "..." ∧
    (truncateDescription (String.mk (List.replicate 600 'x'))).length =
      503 := by
  refine ⟨?_, ?_, fun s => rfl, ?_, ?_⟩
  · intro h
    unfold truncateDescription
    rw [if_pos h]
  · intro h
    unfold truncateDescription
    rw [if_neg (by omega)]
  · unfold truncateDescription
    rw [if_pos (by simp [String.length]), String.take_eq]
    decide
  · unfold truncateDescription
    rw [if_pos (by simp [String.length]), String.take_eq]
    decide

set_option maxRecDepth 8000 in
/-- Witness for C4 at a 600-character description and at a short one. -/
theorem description_truncation_witness :
    truncateDescription (String.mk (List.replicate 600 'x')) =
      (String.mk (List.replicate 600 'x')).take 500 ++ "..." ∧
    truncateDescription "short" = "short" := by
  refine ⟨(description_truncation (String.mk (List.replicate 600 'x'))).1 ?_,
    (description_truncation "short").2.1 ?_⟩
  · simp [String.length]
  · decide

/-- C5: any request whose role and location are strings of positive stripped
length and whose `num_results` is an integer in `[1, 50]` validates; at the
same role/location, `num_results = 0` and `51` fail the range check while
`1` and `50` pass — the boundaries are inclusive. -/
theorem validation_accepts_inclusive_bounds (r l : String) (n : Int)
    (hr : 0 < (pyStrip r).length) (hl : 0 < (pyStrip l).length)
    (h1 : 1 ≤ n) (h2 : n ≤ 50) :
    validateSearchInput [("role", .str r), ("location", .str l),
      ("num_results", .int n)] = (true, "") ∧
    validateSearchInput [("role", .str r), ("location", .str l),
      ("num_results", .int 0)] =
      (false, "num_results must be between 1 and 50") ∧
    validateSearchInput [("role", .str r), ("location", .str l),
      ("num_results", .int 51)] =
      (false, "num_results must be between 1 and 50") ∧
    validateSearchInput [("role", .str r), ("location", .str l),
      ("num_results", .int 1)] = (true, "") ∧
    validateSearchInput [("role", .str r), ("location", .str l),
      ("num_results", .int 50)] = (true, "") := by
  have hr0 : strEmptyViol (.str r) = false := by simp [strEmptyViol]; omega
  have hl0 : strEmptyViol (.str l) = false := by simp [strEmptyViol]; omega
  refine ⟨?_, ?_, ?_, ?_, ?_⟩ <;>
    simp [validateSearchInput, dictGetD, List.lookup, hr0, hl0,
      intTypeViol, intRangeViol, pyIntVal] <;> omega

/-- Witness for C5 at role `"Data Scientist"`, location `"Los Angeles"`,
`num_results = 5`. -/
theorem validation_accepts_inclusive_bounds_witness :
    validateSearchInput [("role", .str "Data Scientist"),
      ("location", .str "Los Angeles"), ("num_results", JVal.int 5)] =
      (true, "") ∧
    validateSearchInput [("role", .str "Data Scientist"),
      ("location", .str "Los Angeles"), ("num_results", JVal.int 0)] =
      (false, "num_results must be between 1 and 50") := by
  obtain ⟨h1, h2, -, -, -⟩ := validation_accepts_inclusive_bounds
    "Data Scientist" "Los Angeles" 5 (by decide) (by decide) (by decide)
    (by decide)
  exact ⟨h1, h2⟩

/-- C6: the validator is a total function that reports exactly the first
violation in the fixed order missing-role → missing-location →
missing-num_results → role-empty → location-empty → num_results-type →
num_results-range: it agrees everywhere with the reference function that
builds the ordered list of violations and returns the head (success when the
list is empty). -/
theorem validation_first_violation_order (input_data : List (String × JVal)) :
    validateSearchInput input_data = validateSpecOrder input_data := by
  unfold validateSearchInput validateSpecOrder violationList
  rcases hr : input_data.lookup "role" with _ | vr <;>
    rcases hl : input_data.lookup "location" with _ | vl <;>
      rcases hn : input_data.lookup "num_results" with _ | vn <;>
        simp [dictGetD, hr, hl, hn] <;>
        split_ifs <;> simp_all

/-- C7: a first attempt rejected with an HTTP 4xx status other than 429
(for example 404) is a definitive failure: the fetcher returns `None` having
issued exactly one request. -/
theorem fetch_4xx_no_retry (resp : Nat → HttpOutcome) (m c : Nat)
    (hresp : resp 0 = .status c) (h4 : 400 ≤ c) (h5 : c < 500)
    (h429 : c ≠ 429) (hm : 1 ≤ m) :
    makeApiRequestWithRetry resp m = (none, 1) := by
  show retryGo resp m 0 = (none, 1)
  rw [retryGo_step resp m 0 hm, hresp]
  show (if c == 429 then retryGo resp m 1
    else if c ≥ 500 then retryGo resp m 1 else (none, 0 + 1)) = (none, 1)
  rw [if_neg (by simp [h429]), if_neg (by omega)]

/-- Witness for C7: HTTP 404 on the first attempt with the default budget. -/
theorem fetch_4xx_no_retry_witness :
    makeApiRequestWithRetry (fun _ => .status 404) API_MAX_RETRIES =
      (none, 1) :=
  fetch_4xx_no_retry (fun _ => .status 404) API_MAX_RETRIES 404 rfl
    (by decide) (by decide) (by decide) (by decide)

/-- C8: the fetcher issues at most `max_retries` attempts. With the default
budget `API_MAX_RETRIES = 3`, the sequence 429, 429, success yields the
parsed payload on the third attempt; and any run in which no attempt within
the budget returns a successfully parsed payload yields `None`. -/
theorem fetch_retry_budget (resp resp2 : Nat → HttpOutcome) (p : JVal)
    (m : Nat) (h0 : resp 0 = .status 429) (h1 : resp 1 = .status 429)
    (h2 : resp 2 = .ok p)
    (hfail : ∀ i, i < m → ∀ q, resp2 i ≠ .ok q) :
    API_MAX_RETRIES = 3 ∧
    makeApiRequestWithRetry resp API_MAX_RETRIES = (some p, 3) ∧
    (makeApiRequestWithRetry resp2 m).1 = none ∧
    (makeApiRequestWithRetry resp2 m).2 ≤ m := by
  refine ⟨rfl, ?_, retryGo_none_of_no_ok resp2 m 0 hfail,
    retryGo_attempts_le resp2 m 0 (Nat.zero_le m)⟩
  show retryGo resp 3 0 = (some p, 3)
  rw [retryGo_step resp 3 0 (by omega), h0]
  show retryGo resp 3 1 = (some p, 3)
  rw [retryGo_step resp 3 1 (by omega), h1]
  show retryGo resp 3 2 = (some p, 3)
  rw [retryGo_step resp 3 2 (by omega), h2]

/-- Witness for C8: 429, 429, then a successful empty-object payload; and an
all-timeouts run. -/
theorem fetch_retry_budget_witness :
    makeApiRequestWithRetry
      (fun n => if n == 2 then .ok (.obj []) else .status 429) 3 =
      (some (.obj []), 3) ∧
    (makeApiRequestWithRetry (fun _ => .timeout) 3).1 = none ∧
    (makeApiRequestWithRetry (fun _ => .timeout) 3).2 ≤ 3 := by
  obtain ⟨-, h1, h2, h3⟩ := fetch_retry_budget
    (fun n => if n == 2 then .ok (.obj []) else .status 429)
    (fun _ => .timeout) (.obj []) 3 rfl rfl rfl
    (fun i hi q h => nomatch h)
  exact ⟨h1, h2, h3⟩

/-- C9: a successful fetch whose payload has no `results` key at all is
reported with the same no-results message (naming the original role and
location) as a payload with an explicit empty `results` array — not a
failure message and not a formatted-job block. -/
theorem search_missing_results_key (role location : String)
    (jobs_data : List (String × JVal))
    (h : jobs_data.lookup "results" = none) :
    searchFormatResults role location jobs_data =
      .ok (noResultsMessage role location) ∧
    searchFormatResults role location
      (("results", JVal.arr []) :: jobs_data) =
      .ok (noResultsMessage role location) := by
  constructor
  · simp [searchFormatResults, dictGetD, h, pyTruthy]
  · simp [searchFormatResults, dictGetD, List.lookup, pyTruthy]

/-- Witness for C9 at a payload holding only a `count` field. -/
theorem search_missing_results_key_witness :
    searchFormatResults "Data Scientist" "Los Angeles"
      [("count", JVal.int 0)] =
      .ok (noResultsMessage "Data Scientist" "Los Angeles") ∧
    searchFormatResults "Data Scientist" "Los Angeles"
      (("results", JVal.arr []) :: [("count", JVal.int 0)]) =
      .ok (noResultsMessage "Data Scientist" "Los Angeles") :=
  search_missing_results_key "Data Scientist" "Los Angeles"
    [("count", JVal.int 0)] rfl

/-- C10: the boolean `True` passes validation as `num_results`: `bool` is a
subclass of `int`, so the `isinstance` check accepts it, and `True == 1`
lies inside the inclusive range `[1, 50]`. -/
theorem validation_bool_num_results :
    validateSearchInput [("role", JVal.str "Data Scientist"),
      ("location", JVal.str "Los Angeles"),
      ("num_results", JVal.bool true)] = (true, "") ∧
    intTypeViol (JVal.bool true) = false ∧
    pyIntVal (JVal.bool true) = 1 := by
  decide

end JobSearch
